import Mathlib

/-!
Shallow embedding of the cinema booking backend (`cinema/serializers.py`,
`cinema/views.py`).  Django state (the `Ticket.objects` / `Order.objects`
tables) is passed explicitly as lists; fallible Python code returns
`Except PyExn`; `transaction.atomic` is modelled by the caller keeping the
original state whenever the result is an error.
-/

/-- A calendar timestamp; the SQL `show_time__date` truncation is modelled
by the `date` component. -/
structure Timestamp where
  date : String
  time : String
deriving Repr, DecidableEq

structure Genre where
  id : Nat
  name : String
deriving Repr, DecidableEq

structure Actor where
  id : Int
  first_name : String
  last_name : String
deriving Repr, DecidableEq

structure Movie where
  id : Int
  title : String
  description : String
  duration : Int
  genres : List Genre
  actors : List Actor
deriving Repr, DecidableEq

structure CinemaHall where
  id : Nat
  name : String
  rows : Int
  seats_in_row : Int
deriving Repr, DecidableEq

def CinemaHall.capacity (h : CinemaHall) : Int :=
  h.rows * h.seats_in_row

structure MovieSession where
  id : Nat
  show_time : Timestamp
  movie : Movie
  cinema_hall : CinemaHall
deriving Repr, DecidableEq

/-- A persisted Ticket row; `movie_session` and `order` are foreign keys. -/
structure Ticket where
  id : Nat
  row : Int
  seat : Int
  movie_session : Nat
  order : Nat
deriving Repr, DecidableEq

/-- A persisted Order row; `user` is the owning user's id. -/
structure Order where
  id : Nat
  user : Nat
deriving Repr, DecidableEq

/-- The mutable store: the Order and Ticket tables plus their id sequences. -/
structure DB where
  orders : List Order
  tickets : List Ticket
  next_order_id : Nat
  next_ticket_id : Nat
deriving Repr, DecidableEq

/-- Detail payload of a DRF ValidationError: either keyed by a field name or
a bare message. -/
inductive ErrDetail where
  | field (name : String) (msg : String)
  | msg (s : String)
deriving Repr, DecidableEq

/-- The Python exceptions the embedded code can raise. -/
inductive PyExn where
  | validationError (d : ErrDetail)
  | valueError (m : String)
  | integrityError (m : String)
deriving Repr, DecidableEq

/-- The validated attrs of one ticket request (the `movie_session` pk has
been resolved to the session instance by the serializer field). -/
structure TicketAttrs where
  row : Int
  seat : Int
  movie_session : MovieSession
deriving Repr, DecidableEq

/-- `Ticket.objects.filter(movie_session=.., row=.., seat=..).exists()`. -/
def ticketExists (tickets : List Ticket) (sid : Nat) (row seat : Int) : Bool :=
  tickets.any (fun t => t.movie_session == sid && t.row == row && t.seat == seat)

/-- `TicketSerializer.validate` (serializers.py lines 124-156): row range
check, then seat range check, then the existing-ticket conflict check; on
success returns `attrs` unchanged and reads, never writes, the store. -/
def TicketSerializer.validate (tickets : List Ticket) (attrs : TicketAttrs) :
    Except PyExn TicketAttrs :=
  if ¬ (1 ≤ attrs.row ∧ attrs.row ≤ attrs.movie_session.cinema_hall.rows) then
    .error (.validationError (.field "row"
      ("Row number must be in range: (1, " ++
        toString attrs.movie_session.cinema_hall.rows ++ ").")))
  else if ¬ (1 ≤ attrs.seat ∧
      attrs.seat ≤ attrs.movie_session.cinema_hall.seats_in_row) then
    .error (.validationError (.field "seat"
      ("Seat number must be in range: (1, " ++
        toString attrs.movie_session.cinema_hall.seats_in_row ++ ").")))
  else if ticketExists tickets attrs.movie_session.id attrs.row attrs.seat then
    .error (.validationError (.msg
      ("Seat " ++ toString attrs.seat ++ " in row " ++ toString attrs.row ++
        " is already taken.")))
  else
    .ok attrs

/-- Child-by-child validation of the `many=True` ticket list: each request
runs `TicketSerializer.validate`; any child failure aborts the whole
submission (modelled as the first failure). -/
def validate_each (tickets : List Ticket) :
    List TicketAttrs → Except PyExn (List TicketAttrs)
  | [] => .ok []
  | r :: rs => do
    let v ← TicketSerializer.validate tickets r
    let vs ← validate_each tickets rs
    .ok (v :: vs)

/-- The order serializer declares
`tickets = TicketSerializer(many=True, allow_empty=False)`
(serializers.py line 164): an empty list is rejected with a field error,
otherwise every child request is validated. -/
def OrderSerializer.run_validation (tickets : List Ticket)
    (reqs : List TicketAttrs) : Except PyExn (List TicketAttrs) :=
  if reqs.isEmpty then
    .error (.validationError (.field "tickets" "This list may not be empty."))
  else
    validate_each tickets reqs

/-- Modelled from the spec: `cinema/models.py` is not under `src/`; spec §5
requires a storage-layer uniqueness constraint on
(movie_session, row, seat) whose violation raises an IntegrityError at
insert time.  `Ticket.objects.create(order=order, **ticket_data)` appends a
row or raises that error. -/
def DB.insert_ticket (db : DB) (order_id : Nat) (t : TicketAttrs) :
    Except PyExn DB :=
  if ticketExists db.tickets t.movie_session.id t.row t.seat then
    .error (.integrityError
      "UNIQUE constraint failed: cinema_ticket.movie_session_id, cinema_ticket.row, cinema_ticket.seat")
  else
    .ok { db with
      tickets := db.tickets ++
        [⟨db.next_ticket_id, t.row, t.seat, t.movie_session.id, order_id⟩],
      next_ticket_id := db.next_ticket_id + 1 }

/-- The `for ticket_data in tickets_data: Ticket.objects.create(...)` loop
of `OrderSerializer.create` (serializers.py lines 175-176). -/
def DB.insert_tickets (db : DB) (order_id : Nat) :
    List TicketAttrs → Except PyExn DB
  | [] => .ok db
  | t :: ts => do
    let db2 ← db.insert_ticket order_id t
    db2.insert_tickets order_id ts

/-- `OrderSerializer.create` (serializers.py lines 170-178): inside
`transaction.atomic()` create the Order row, then one Ticket row per
request.  No exception is caught here; the transactional rollback is
modelled by the caller keeping the original `DB` whenever the result is an
error (see `commit`). -/
def OrderSerializer.create (db : DB) (user : Nat)
    (tickets_data : List TicketAttrs) : Except PyExn (DB × Order) :=
  (DB.insert_tickets
    { db with orders := db.orders ++ [⟨db.next_order_id, user⟩],
              next_order_id := db.next_order_id + 1 }
    db.next_order_id tickets_data).map
    (fun db2 => (db2, ⟨db.next_order_id, user⟩))

/-- The order-creation endpoint: DRF runs the serializer validation, then
`OrderViewSet.perform_create` calls `serializer.save(user=self.request.user)`
(views.py lines 128-129), which invokes `OrderSerializer.create` with the
requesting user. -/
def create_order (db : DB) (user : Nat) (reqs : List TicketAttrs) :
    Except PyExn (DB × Order) := do
  let validated ← OrderSerializer.run_validation db.tickets reqs
  OrderSerializer.create db user validated

/-- The store visible after the request: `transaction.atomic()` commits the
new state only on success and rolls every write back on any exception. -/
def commit (db : DB) : Except PyExn (DB × Order) → DB
  | .ok (db2, _) => db2
  | .error _ => db

/-- Two ticket requests aiming at the same (movie_session, row, seat). -/
def same_place (a b : TicketAttrs) : Prop :=
  a.movie_session.id = b.movie_session.id ∧ a.row = b.row ∧ a.seat = b.seat

instance (a b : TicketAttrs) : Decidable (same_place a b) := by
  unfold same_place
  infer_instance

/-- Accumulate decimal digits; any non-digit character fails. -/
def digitsToNat (acc : Nat) : List Char → Option Nat
  | [] => some acc
  | c :: cs =>
    if c.isDigit then digitsToNat (acc * 10 + (c.toNat - 48)) cs else none

/-- The value of a non-empty all-digit character run. -/
def digitsVal (cs : List Char) : Option Nat :=
  if cs.isEmpty then none else digitsToNat 0 cs

def dropLeadingSpaces : List Char → List Char
  | [] => []
  | c :: cs => if c = ' ' then dropLeadingSpaces cs else c :: cs

/-- Python `int(s)`: optional surrounding whitespace and a sign, then
decimal digits; anything else raises ValueError (here `none`).  Underscore
separators, non-space whitespace and non-ASCII digits are out of scope for
the claims. -/
def pyInt (s : String) : Option Int :=
  match dropLeadingSpaces ((dropLeadingSpaces s.data.reverse).reverse) with
  | '-' :: ds => (digitsVal ds).map (fun n => -(n : Int))
  | '+' :: ds => (digitsVal ds).map (fun n => (n : Int))
  | ds => (digitsVal ds).map (fun n => (n : Int))

/-- Python `query_string.split(",")`. -/
def splitCommaAux (cur : List Char) : List Char → List String
  | [] => [String.mk cur.reverse]
  | c :: cs =>
    if c = ',' then String.mk cur.reverse :: splitCommaAux [] cs
    else splitCommaAux (c :: cur) cs

def splitComma (s : String) : List String :=
  splitCommaAux [] s.data

/-- Parse every chunk or fail on the first bad one. -/
def intList : List String → Option (List Int)
  | [] => some []
  | s :: ss =>
    match pyInt s, intList ss with
    | some i, some is => some (i :: is)
    | _, _ => none

/-- `MovieViewSet._params_to_int` (views.py lines 42-44):
`[int(str_id) for str_id in query_string.split(",")]`; a chunk that is not
an integer literal raises ValueError, which nothing in the view catches. -/
def MovieViewSet.params_to_int (query_string : String) :
    Except PyExn (List Int) :=
  match intList (splitComma query_string) with
  | some ids => .ok ids
  | none => .error (.valueError "invalid literal for int with base 10")

/-- DRF viewset actions. -/
inductive ViewAction where
  | list
  | retrieve
  | create
  | update
  | destroy
deriving Repr, DecidableEq

/-- Is `needle` a prefix of `hay`? -/
def beginsWith : List Char → List Char → Bool
  | [], _ => true
  | _ :: _, [] => false
  | c :: cs, d :: ds => c == d && beginsWith cs ds

/-- Does `needle` occur contiguously inside `hay`? -/
def occursIn (needle : List Char) : List Char → Bool
  | [] => beginsWith needle []
  | d :: ds => beginsWith needle (d :: ds) || occursIn needle ds

/-- The `__icontains` lookup: case-insensitive substring test (ASCII
lowering, as SQL `LOWER` does for the claims' inputs). -/
def icontains (hay needle : String) : Bool :=
  occursIn (needle.data.map Char.toLower) (hay.data.map Char.toLower)

structure MovieQueryParams where
  actors : Option String
  genres : Option String
  title : Option String
deriving Repr, DecidableEq

/-- The `if actors:` block of `MovieViewSet.get_queryset` (views.py lines
54-56): Python truthiness skips a missing or empty parameter. -/
def applyActorsFilter (movies : List Movie) (actors : Option String) :
    Except PyExn (List Movie) :=
  match actors with
  | some a =>
    if a ≠ "" then
      match MovieViewSet.params_to_int a with
      | .ok ids =>
        .ok (movies.filter (fun m =>
          m.actors.any (fun ac => ids.contains ac.id)))
      | .error e => .error e
    else .ok movies
  | none => .ok movies

/-- The `if genres:` block (views.py lines 58-59):
`filter(genres__name__icontains=genres)`. -/
def applyGenresFilter (movies : List Movie) (genres : Option String) :
    List Movie :=
  match genres with
  | some g =>
    if g ≠ "" then
      movies.filter (fun m => m.genres.any (fun ge => icontains ge.name g))
    else movies
  | none => movies

/-- The `if title:` block (views.py lines 61-62):
`filter(title__icontains=title)`. -/
def applyTitleFilter (movies : List Movie) (title : Option String) :
    List Movie :=
  match title with
  | some t =>
    if t ≠ "" then movies.filter (fun m => icontains m.title t) else movies
  | none => movies

/-- `MovieViewSet.get_queryset` (views.py lines 46-64): the three query
parameters only apply to the list action; the queryset ends with
`.distinct()` (here `List.dedup`). -/
def MovieViewSet.get_queryset (action : ViewAction)
    (params : MovieQueryParams) (movies : List Movie) :
    Except PyExn (List Movie) :=
  if action = ViewAction.list then
    match applyActorsFilter movies params.actors with
    | .ok q1 =>
      .ok ((applyTitleFilter (applyGenresFilter q1 params.genres)
        params.title).dedup)
    | .error e => .error e
  else
    .ok movies.dedup

structure SessionQueryParams where
  date : Option String
  movie : Option String
deriving Repr, DecidableEq

/-- One row of the movie-session queryset; `tickets_available` is `some`
exactly when the `annotate` of the list branch ran. -/
structure SessionRow where
  session : MovieSession
  tickets_available : Option Int
deriving Repr, DecidableEq

/-- `Count("tickets")` for one session. -/
def count_tickets (tickets : List Ticket) (sid : Nat) : Nat :=
  (tickets.filter (fun t => t.movie_session == sid)).length

/-- The annotation `F("cinema_hall__rows") * F("cinema_hall__seats_in_row")
- Count("tickets")` (views.py lines 82-88). -/
def session_tickets_available (tickets : List Ticket) (s : MovieSession) :
    Int :=
  s.cinema_hall.rows * s.cinema_hall.seats_in_row - count_tickets tickets s.id

/-- The `if date:` block (views.py lines 92-93):
`filter(show_time__date=date)`. -/
def applyDateFilter (rows : List SessionRow) (date : Option String) :
    List SessionRow :=
  match date with
  | some d =>
    if d ≠ "" then rows.filter (fun r => r.session.show_time.date == d)
    else rows
  | none => rows

/-- The `if movie_id:` block (views.py lines 95-96):
`filter(movie__id=movie_id)`; the string is coerced to an integer by the
lookup. -/
def applyMovieFilter (rows : List SessionRow) (movie : Option String) :
    Except PyExn (List SessionRow) :=
  match movie with
  | some m =>
    if m ≠ "" then
      match pyInt m with
      | some i => .ok (rows.filter (fun r => r.session.movie.id == i))
      | none => .error (.valueError "invalid literal for int with base 10")
    else .ok rows
  | none => .ok rows

/-- `MovieSessionViewSet.get_queryset` (views.py lines 78-98): only the
list action annotates `tickets_available` and applies the date/movie
filters; every branch ends in `.distinct()`. -/
def MovieSessionViewSet.get_queryset (action : ViewAction)
    (params : SessionQueryParams) (sessions : List MovieSession)
    (tickets : List Ticket) : Except PyExn (List SessionRow) :=
  if action = ViewAction.list then
    match applyMovieFilter
        (applyDateFilter
          (sessions.map (fun s =>
            ⟨s, some (session_tickets_available tickets s)⟩))
          params.date)
        params.movie with
    | .ok rows => .ok rows.dedup
    | .error e => .error e
  else
    .ok ((sessions.map (fun s => ⟨s, none⟩)).dedup)

/-- `OrderViewSet.get_queryset` (views.py lines 113-126):
`filter(user=self.request.user)`; the prefetches do not change the row
set. -/
def OrderViewSet.get_queryset (user : Nat) (db : DB) : List Order :=
  db.orders.filter (fun o => o.user == user)

/-- DRF `get_object` for the retrieve action: look the pk up inside
`get_queryset` (404, i.e. `none`, when absent). -/
def OrderViewSet.retrieve (user : Nat) (db : DB) (pk : Nat) : Option Order :=
  (OrderViewSet.get_queryset user db).find? (fun o => o.id == pk)

inductive SerializerKind where
  | order
  | orderList
deriving Repr, DecidableEq

/-- `OrderViewSet.get_serializer_class` (views.py lines 131-135):
`OrderListSerializer` for the list action, plain `OrderSerializer`
otherwise — including for create. -/
def OrderViewSet.get_serializer_class (action : ViewAction) :
    SerializerKind :=
  if action = ViewAction.list then SerializerKind.orderList
  else SerializerKind.order

/-- Output fields of `MovieSessionSerializer` (serializers.py lines
57-76). -/
structure MovieSessionRepr where
  id : Nat
  show_time : Timestamp
  movie_title : String
  cinema_hall_name : String
  cinema_hall_capacity : Int
deriving Repr, DecidableEq

/-- A serialized ticket: plain `TicketSerializer` renders the session as
its pk, `TicketDetailSerializer` as a nested `MovieSessionSerializer`
object. -/
inductive TicketRepr where
  | withSessionId (id : Nat) (row seat : Int) (movie_session : Nat)
  | withSessionDetail (id : Nat) (row seat : Int)
      (movie_session : MovieSessionRepr)
deriving Repr, DecidableEq

def MovieSessionSerializer.to_representation (s : MovieSession) :
    MovieSessionRepr :=
  ⟨s.id, s.show_time, s.movie.title, s.cinema_hall.name,
    s.cinema_hall.capacity⟩

/-- `TicketSerializer` fields `["id", "row", "seat", "movie_session"]`
(serializers.py line 122); `movie_session` is a plain pk. -/
def TicketSerializer.to_representation (t : Ticket) : TicketRepr :=
  .withSessionId t.id t.row t.seat t.movie_session

/-- `TicketDetailSerializer` (serializers.py lines 159-160): overrides
`movie_session` with a nested `MovieSessionSerializer`. -/
def TicketDetailSerializer.to_representation (s : MovieSession) (t : Ticket) :
    TicketRepr :=
  .withSessionDetail t.id t.row t.seat
    (MovieSessionSerializer.to_representation s)

/-- Serialized order (`created_at` is framework-set and orthogonal to the
claims, so it is not modelled). -/
structure OrderRepr where
  id : Nat
  tickets : List TicketRepr
deriving Repr, DecidableEq

/-- The body DRF returns from a successful create: the saved order rendered
by the serializer the create action selected, i.e. `OrderSerializer`, whose
`tickets` child is plain `TicketSerializer`. -/
def order_create_response (db2 : DB) (ord : Order) : OrderRepr :=
  ⟨ord.id, (db2.tickets.filter (fun t => t.order == ord.id)).map
    TicketSerializer.to_representation⟩

/-- Output fields of `MovieSessionDetailSerializer` (serializers.py lines
107-116): nested movie and hall plus `taken_places`, the (row, seat) pairs
of the session's tickets; no `tickets_available` field. -/
structure MovieSessionDetailRepr where
  id : Nat
  show_time : Timestamp
  movie : Movie
  cinema_hall : CinemaHall
  taken_places : List (Int × Int)
deriving Repr, DecidableEq

def MovieSessionDetailSerializer.to_representation (tickets : List Ticket)
    (s : MovieSession) : MovieSessionDetailRepr :=
  ⟨s.id, s.show_time, s.movie, s.cinema_hall,
    (tickets.filter (fun t => t.movie_session == s.id)).map
      (fun t => (t.row, t.seat))⟩

/-- Sample hall: 5 rows × 10 seats (spec §8 scenario). -/
def hall1 : CinemaHall := ⟨1, "Blue", 5, 10⟩

def movie1 : Movie :=
  ⟨1, "Inception", "A heist inside dreams", 148,
    [⟨1, "Action"⟩], [⟨1, "Leonardo", "DiCaprio"⟩]⟩

def sess1 : MovieSession := ⟨1, ⟨"2026-10-12", "20:00"⟩, movie1, hall1⟩

/-- An empty store. -/
def db0 : DB := ⟨[], [], 1, 1⟩

/-- A valid request: row 3, seat 4 of session 1. -/
def req34 : TicketAttrs := ⟨3, 4, sess1⟩

/-- A request whose row is outside the 5-row hall. -/
def req_row_out : TicketAttrs := ⟨7, 1, sess1⟩

/-- A stored ticket occupying (session 1, row 7, seat 1). -/
def tick71 : Ticket := ⟨0, 7, 1, 1, 0⟩

/-- Session 1 as the list view renders it over an empty ticket table:
5 × 10 capacity, 0 tickets sold. -/
def row50 : SessionRow := ⟨sess1, some 50⟩

/-- The store after booking (row 3, seat 4) of session 1 on `db0` as
user 1. -/
def db1c : DB := ⟨[⟨1, 1⟩], [⟨1, 3, 4, 1, 1⟩], 2, 2⟩

theorem ticketExists_eq_false_iff (tickets : List Ticket) (sid : Nat)
    (row seat : Int) :
    ticketExists tickets sid row seat = false ↔
      ∀ t ∈ tickets,
        ¬ (t.movie_session = sid ∧ t.row = row ∧ t.seat = seat) := by
  simp [ticketExists, List.any_eq_true, not_and]

theorem validate_of_row_out (tickets : List Ticket) (attrs : TicketAttrs)
    (h : ¬ (1 ≤ attrs.row ∧ attrs.row ≤ attrs.movie_session.cinema_hall.rows)) :
    TicketSerializer.validate tickets attrs =
      .error (.validationError (.field "row"
        ("Row number must be in range: (1, " ++
          toString attrs.movie_session.cinema_hall.rows ++ ")."))) := by
  unfold TicketSerializer.validate
  rw [if_pos h]

theorem validate_of_seat_out (tickets : List Ticket) (attrs : TicketAttrs)
    (h1 : 1 ≤ attrs.row ∧ attrs.row ≤ attrs.movie_session.cinema_hall.rows)
    (h2 : ¬ (1 ≤ attrs.seat ∧
      attrs.seat ≤ attrs.movie_session.cinema_hall.seats_in_row)) :
    TicketSerializer.validate tickets attrs =
      .error (.validationError (.field "seat"
        ("Seat number must be in range: (1, " ++
          toString attrs.movie_session.cinema_hall.seats_in_row ++ ")."))) := by
  unfold TicketSerializer.validate
  rw [if_neg (not_not_intro h1), if_pos h2]

theorem validate_of_conflict (tickets : List Ticket) (attrs : TicketAttrs)
    (h1 : 1 ≤ attrs.row ∧ attrs.row ≤ attrs.movie_session.cinema_hall.rows)
    (h2 : 1 ≤ attrs.seat ∧
      attrs.seat ≤ attrs.movie_session.cinema_hall.seats_in_row)
    (h3 : ticketExists tickets attrs.movie_session.id attrs.row attrs.seat
      = true) :
    TicketSerializer.validate tickets attrs =
      .error (.validationError (.msg
        ("Seat " ++ toString attrs.seat ++ " in row " ++ toString attrs.row ++
          " is already taken."))) := by
  unfold TicketSerializer.validate
  rw [if_neg (not_not_intro h1), if_neg (not_not_intro h2), if_pos h3]

theorem validate_of_free (tickets : List Ticket) (attrs : TicketAttrs)
    (h1 : 1 ≤ attrs.row ∧ attrs.row ≤ attrs.movie_session.cinema_hall.rows)
    (h2 : 1 ≤ attrs.seat ∧
      attrs.seat ≤ attrs.movie_session.cinema_hall.seats_in_row)
    (h3 : ticketExists tickets attrs.movie_session.id attrs.row attrs.seat
      = false) :
    TicketSerializer.validate tickets attrs = .ok attrs := by
  unfold TicketSerializer.validate
  rw [if_neg (not_not_intro h1), if_neg (not_not_intro h2), if_neg (by
    simp [h3])]

/-- C1: ticket validation succeeds exactly when the row and seat are inside
the hall geometry and no stored ticket occupies the same
(movie_session, row, seat) triple; on success it returns the attrs
unchanged, having only read the ticket table (no side effect). -/
theorem validate_succeeds_iff (tickets : List Ticket) (attrs : TicketAttrs) :
    ((TicketSerializer.validate tickets attrs).isOk = true ↔
      (1 ≤ attrs.row ∧ attrs.row ≤ attrs.movie_session.cinema_hall.rows ∧
       1 ≤ attrs.seat ∧
       attrs.seat ≤ attrs.movie_session.cinema_hall.seats_in_row ∧
       ∀ t ∈ tickets,
         ¬ (t.movie_session = attrs.movie_session.id ∧
            t.row = attrs.row ∧ t.seat = attrs.seat))) ∧
    ((TicketSerializer.validate tickets attrs).isOk = true →
      TicketSerializer.validate tickets attrs = .ok attrs) := by
  by_cases h1 : 1 ≤ attrs.row ∧ attrs.row ≤ attrs.movie_session.cinema_hall.rows
  · by_cases h2 : 1 ≤ attrs.seat ∧
        attrs.seat ≤ attrs.movie_session.cinema_hall.seats_in_row
    · by_cases h3 : ticketExists tickets attrs.movie_session.id
          attrs.row attrs.seat = true
      · rw [validate_of_conflict tickets attrs h1 h2 h3]
        have h3x : ¬ ∀ t ∈ tickets,
            ¬ (t.movie_session = attrs.movie_session.id ∧
               t.row = attrs.row ∧ t.seat = attrs.seat) := by
          intro hall
          rw [(ticketExists_eq_false_iff tickets attrs.movie_session.id
            attrs.row attrs.seat).mpr hall] at h3
          exact Bool.false_ne_true h3
        constructor
        · simp only [Except.isOk, Except.toBool, Bool.false_eq_true,
            false_iff]
          tauto
        · intro hk
          exact absurd hk (by simp [Except.isOk, Except.toBool])
      · simp only [Bool.not_eq_true] at h3
        rw [validate_of_free tickets attrs h1 h2 h3]
        have h3x := (ticketExists_eq_false_iff tickets attrs.movie_session.id
          attrs.row attrs.seat).mp h3
        constructor
        · simp only [Except.isOk, Except.toBool, true_iff]
          tauto
        · intro _
          rfl
    · rw [validate_of_seat_out tickets attrs h1 h2]
      constructor
      · simp only [Except.isOk, Except.toBool, Bool.false_eq_true, false_iff]
        tauto
      · intro hk
        exact absurd hk (by simp [Except.isOk, Except.toBool])
  · rw [validate_of_row_out tickets attrs h1]
    constructor
    · simp only [Except.isOk, Except.toBool, Bool.false_eq_true, false_iff]
      tauto
    · intro hk
      exact absurd hk (by simp [Except.isOk, Except.toBool])

/-- C7: when the seat is already taken but the reference is also out of
range, validation reports the range error (row first, then seat), never the
conflict error: the range checks run before the existing-ticket check. -/
theorem validate_range_before_conflict (tickets : List Ticket)
    (attrs : TicketAttrs)
    (htaken : ticketExists tickets attrs.movie_session.id attrs.row
      attrs.seat = true) :
    (¬ (1 ≤ attrs.row ∧ attrs.row ≤ attrs.movie_session.cinema_hall.rows) →
      ∃ m, TicketSerializer.validate tickets attrs =
        .error (.validationError (.field "row" m))) ∧
    ((1 ≤ attrs.row ∧ attrs.row ≤ attrs.movie_session.cinema_hall.rows) →
      ¬ (1 ≤ attrs.seat ∧
        attrs.seat ≤ attrs.movie_session.cinema_hall.seats_in_row) →
      ∃ m, TicketSerializer.validate tickets attrs =
        .error (.validationError (.field "seat" m))) := by
  constructor
  · intro h1
    exact ⟨_, validate_of_row_out tickets attrs h1⟩
  · intro h1 h2
    exact ⟨_, validate_of_seat_out tickets attrs h1 h2⟩

theorem validate_range_before_conflict_witness :
    ticketExists [tick71] req_row_out.movie_session.id req_row_out.row
      req_row_out.seat = true ∧
    ((¬ (1 ≤ req_row_out.row ∧
        req_row_out.row ≤ req_row_out.movie_session.cinema_hall.rows) →
      ∃ m, TicketSerializer.validate [tick71] req_row_out =
        .error (.validationError (.field "row" m))) ∧
    ((1 ≤ req_row_out.row ∧
        req_row_out.row ≤ req_row_out.movie_session.cinema_hall.rows) →
      ¬ (1 ≤ req_row_out.seat ∧
        req_row_out.seat ≤
          req_row_out.movie_session.cinema_hall.seats_in_row) →
      ∃ m, TicketSerializer.validate [tick71] req_row_out =
        .error (.validationError (.field "seat" m)))) :=
  ⟨by decide, validate_range_before_conflict [tick71] req_row_out (by decide)⟩

theorem validate_ok_val (tickets : List Ticket) (attrs out : TicketAttrs)
    (h : TicketSerializer.validate tickets attrs = .ok out) : out = attrs := by
  unfold TicketSerializer.validate at h
  split at h
  · cases h
  · split at h
    · cases h
    · split at h
      · cases h
      · exact (Except.ok.inj h).symm

theorem validate_each_error_of_mem (tickets : List Ticket)
    (l : List TicketAttrs) (r : TicketAttrs) (hr : r ∈ l) (e : PyExn)
    (he : TicketSerializer.validate tickets r = .error e) :
    ∃ e2, validate_each tickets l = .error e2 := by
  induction l with
  | nil => cases hr
  | cons a as ih =>
    rcases List.mem_cons.mp hr with rfl | htail
    · exact ⟨e, by simp [validate_each, he, Except.bind, bind]⟩
    · cases hfa : TicketSerializer.validate tickets a with
      | error e2 =>
        exact ⟨e2, by simp [validate_each, hfa, Except.bind, bind]⟩
      | ok b =>
        obtain ⟨e2, h2⟩ := ih htail
        exact ⟨e2, by simp [validate_each, hfa, h2, Except.bind, bind]⟩

theorem validate_each_eq (tickets : List Ticket)
    (reqs out : List TicketAttrs)
    (h : validate_each tickets reqs = .ok out) :
    out = reqs := by
  induction reqs generalizing out with
  | nil =>
    simp only [validate_each] at h
    exact (Except.ok.inj h).symm
  | cons a as ih =>
    simp only [validate_each] at h
    cases hfa : TicketSerializer.validate tickets a with
    | error e => simp [hfa, Except.bind, bind] at h
    | ok b =>
      cases hbs : validate_each tickets as with
      | error e => simp [hfa, hbs, Except.bind, bind] at h
      | ok bs =>
        simp only [hfa, hbs, Except.bind, bind] at h
        have hout := (Except.ok.inj h).symm
        rw [hout, validate_ok_val tickets a b hfa, ih bs hbs]

/-- C2: order creation fails and persists nothing — neither an Order row
nor any Ticket row — when the request carries an empty ticket list or when
any single ticket request fails validation (all-or-nothing). -/
theorem create_order_all_or_nothing (db : DB) (user : Nat)
    (reqs : List TicketAttrs)
    (h : reqs = [] ∨ ∃ r ∈ reqs, ∃ e,
      TicketSerializer.validate db.tickets r = .error e) :
    (∃ e, create_order db user reqs = .error e) ∧
    commit db (create_order db user reqs) = db := by
  have hfail : ∃ e, OrderSerializer.run_validation db.tickets reqs
      = .error e := by
    rcases h with rfl | ⟨r, hr, e, he⟩
    · exact ⟨_, rfl⟩
    · have hne : reqs.isEmpty = false := by
        cases reqs
        · cases hr
        · rfl
      obtain ⟨e2, h2⟩ := validate_each_error_of_mem db.tickets reqs r hr e he
      exact ⟨e2, by simp [OrderSerializer.run_validation, hne, h2]⟩
  obtain ⟨e, he⟩ := hfail
  refine ⟨⟨e, ?_⟩, ?_⟩
  · simp [create_order, he, Except.bind, bind]
  · simp [commit, create_order, he, Except.bind, bind]

theorem create_order_all_or_nothing_witness :
    (([req_row_out] : List TicketAttrs) = [] ∨
      ∃ r ∈ [req_row_out], ∃ e,
        TicketSerializer.validate db0.tickets r = .error e) ∧
    ((∃ e, create_order db0 1 [req_row_out] = .error e) ∧
      commit db0 (create_order db0 1 [req_row_out]) = db0) := by
  have h : ([req_row_out] : List TicketAttrs) = [] ∨
      ∃ r ∈ [req_row_out], ∃ e,
        TicketSerializer.validate db0.tickets r = .error e :=
    Or.inr ⟨req_row_out, List.mem_singleton.mpr rfl, ⟨_, rfl⟩⟩
  exact ⟨h, create_order_all_or_nothing db0 1 [req_row_out] h⟩

theorem insert_ticket_ok (db : DB) (oid : Nat) (t : TicketAttrs) (dbx : DB)
    (h : db.insert_ticket oid t = .ok dbx) :
    ticketExists db.tickets t.movie_session.id t.row t.seat = false ∧
    dbx = { db with
      tickets := db.tickets ++
        [⟨db.next_ticket_id, t.row, t.seat, t.movie_session.id, oid⟩],
      next_ticket_id := db.next_ticket_id + 1 } := by
  unfold DB.insert_ticket at h
  split at h
  · cases h
  · rename_i hcond
    exact ⟨by simpa using hcond, (Except.ok.inj h).symm⟩

theorem insert_tickets_ok (oid : Nat) (ts : List TicketAttrs) (db db2 : DB)
    (h : DB.insert_tickets db oid ts = .ok db2) :
    db2.orders = db.orders ∧ db2.next_order_id = db.next_order_id ∧
    ∃ new, db2.tickets = db.tickets ++ new ∧
      new.map (fun t => (t.row, t.seat, t.movie_session)) =
        ts.map (fun q => (q.row, q.seat, q.movie_session.id)) ∧
      ∀ t ∈ new, t.order = oid := by
  induction ts generalizing db with
  | nil =>
    simp only [DB.insert_tickets] at h
    have hd : db = db2 := Except.ok.inj h
    subst hd
    exact ⟨rfl, rfl, ⟨[], by simp, by simp, by simp⟩⟩
  | cons q qs ih =>
    simp only [DB.insert_tickets] at h
    cases hin : db.insert_ticket oid q with
    | error e =>
      rw [hin] at h
      simp [Except.bind, bind] at h
    | ok dbx =>
      rw [hin] at h
      simp only [Except.bind, bind] at h
      obtain ⟨hfree, hdbx⟩ := insert_ticket_ok db oid q dbx hin
      obtain ⟨ho, hn, new, htk, hmap, hord⟩ := ih dbx h
      subst hdbx
      refine ⟨by simpa using ho, by simpa using hn,
        ⟨⟨db.next_ticket_id, q.row, q.seat, q.movie_session.id, oid⟩ :: new,
          ?_, ?_, ?_⟩⟩
      · rw [htk]
        simp
      · simp [hmap]
      · intro t ht
        rcases List.mem_cons.mp ht with rfl | ht2
        · rfl
        · exact hord t ht2

theorem create_order_ok (db : DB) (user : Nat) (reqs : List TicketAttrs)
    (db2 : DB) (ord : Order)
    (h : create_order db user reqs = .ok (db2, ord)) :
    ord = ⟨db.next_order_id, user⟩ ∧
    DB.insert_tickets
      { db with orders := db.orders ++ [⟨db.next_order_id, user⟩],
                next_order_id := db.next_order_id + 1 }
      db.next_order_id reqs = .ok db2 := by
  unfold create_order at h
  cases hv : OrderSerializer.run_validation db.tickets reqs with
  | error e =>
    rw [hv] at h
    simp [Except.bind, bind] at h
  | ok v =>
    have hvv : v = reqs := by
      unfold OrderSerializer.run_validation at hv
      split at hv
      · cases hv
      · exact validate_each_eq db.tickets reqs v hv
    rw [hv] at h
    simp only [Except.bind, bind] at h
    rw [hvv] at h
    unfold OrderSerializer.create at h
    cases hins : DB.insert_tickets
        { db with orders := db.orders ++ [⟨db.next_order_id, user⟩],
                  next_order_id := db.next_order_id + 1 }
        db.next_order_id reqs with
    | error e =>
      rw [hins] at h
      simp [Except.map] at h
    | ok dbx =>
      rw [hins] at h
      simp only [Except.map] at h
      have hp := Except.ok.inj h
      have hdb : dbx = db2 := congrArg Prod.fst hp
      have hord : (⟨db.next_order_id, user⟩ : Order) = ord :=
        congrArg Prod.snd hp
      subst hdb
      exact ⟨hord.symm, rfl⟩

/-- C5: a user's order queryset and retrieve never expose another user's
order, and a created order is attached to the requesting user: order
visibility is exactly the requester's own orders. -/
theorem order_visibility (A B : Nat) (db : DB) (hAB : A ≠ B) :
    (∀ o ∈ OrderViewSet.get_queryset A db, o.user = A ∧ o.user ≠ B) ∧
    (∀ pk o, OrderViewSet.retrieve A db pk = some o →
      o.user = A ∧ o.user ≠ B) ∧
    (∀ reqs db2 ord, create_order db A reqs = .ok (db2, ord) →
      ord.user = A ∧ ord ∈ db2.orders) := by
  have hq : ∀ o ∈ OrderViewSet.get_queryset A db, o.user = A := by
    intro o ho
    have := List.of_mem_filter ho
    exact beq_iff_eq.mp this
  refine ⟨fun o ho => ⟨hq o ho, ?_⟩, fun pk o ho => ?_, fun reqs db2 ord hc => ?_⟩
  · rw [hq o ho]
    exact hAB
  · have hmem : o ∈ OrderViewSet.get_queryset A db :=
      List.mem_of_find?_eq_some ho
    exact ⟨hq o hmem, by rw [hq o hmem]; exact hAB⟩
  · obtain ⟨hord, hins⟩ := create_order_ok db A reqs db2 ord hc
    obtain ⟨ho, _, _⟩ := insert_tickets_ok _ _ _ _ hins
    constructor
    · rw [hord]
    · rw [ho]
      simp [hord]

theorem order_visibility_witness :
    (1 : Nat) ≠ 2 ∧
    ((∀ o ∈ OrderViewSet.get_queryset 1 db0, o.user = 1 ∧ o.user ≠ 2) ∧
    (∀ pk o, OrderViewSet.retrieve 1 db0 pk = some o →
      o.user = 1 ∧ o.user ≠ 2) ∧
    (∀ reqs db2 ord, create_order db0 1 reqs = .ok (db2, ord) →
      ord.user = 1 ∧ ord ∈ db2.orders)) :=
  ⟨by decide, order_visibility 1 2 db0 (by decide)⟩

theorem applyDateFilter_subset (rows : List SessionRow) (d : Option String)
    (r : SessionRow) (hr : r ∈ applyDateFilter rows d) : r ∈ rows := by
  unfold applyDateFilter at hr
  split at hr
  · split at hr
    · exact List.mem_of_mem_filter hr
    · exact hr
  · exact hr

theorem applyMovieFilter_subset (rows rows2 : List SessionRow)
    (m : Option String) (h : applyMovieFilter rows m = .ok rows2)
    (r : SessionRow) (hr : r ∈ rows2) : r ∈ rows := by
  unfold applyMovieFilter at h
  split at h
  · split at h
    · split at h
      · rw [← Except.ok.inj h] at hr
        exact List.mem_of_mem_filter hr
      · cases h
    · rw [← Except.ok.inj h] at hr
      exact hr
  · rw [← Except.ok.inj h] at hr
    exact hr

theorem session_list_row_avail (params : SessionQueryParams)
    (sessions : List MovieSession) (tickets : List Ticket)
    (out : List SessionRow) (r : SessionRow)
    (hq : MovieSessionViewSet.get_queryset .list params sessions tickets
      = .ok out)
    (hr : r ∈ out) :
    r.tickets_available = some (session_tickets_available tickets r.session)
    := by
  unfold MovieSessionViewSet.get_queryset at hq
  rw [if_pos rfl] at hq
  split at hq
  · rename_i rows hrows
    rw [← Except.ok.inj hq] at hr
    have h1 : r ∈ rows := List.mem_dedup.mp hr
    have h2 := applyMovieFilter_subset _ _ _ hrows r h1
    have h3 := applyDateFilter_subset _ _ r h2
    obtain ⟨s, _, heq⟩ := List.mem_map.mp h3
    rw [← heq]
  · cases hq

theorem count_tickets_append (l1 l2 : List Ticket) (sid : Nat) :
    count_tickets (l1 ++ l2) sid
      = count_tickets l1 sid + count_tickets l2 sid := by
  simp [count_tickets, List.filter_append]

theorem create_order_new_tickets (db : DB) (user : Nat)
    (reqs : List TicketAttrs) (db2 : DB) (ord : Order)
    (hc : create_order db user reqs = .ok (db2, ord)) :
    db2.orders = db.orders ++ [ord] ∧
    ∃ new, db2.tickets = db.tickets ++ new ∧
      new.map (fun t => (t.row, t.seat, t.movie_session)) =
        reqs.map (fun q => (q.row, q.seat, q.movie_session.id)) ∧
      ∀ t ∈ new, t.order = ord.id := by
  obtain ⟨hord, hins⟩ := create_order_ok db user reqs db2 ord hc
  obtain ⟨ho, _, new, htk, hmap, hoid⟩ := insert_tickets_ok _ _ _ _ hins
  subst hord
  refine ⟨by simpa using ho, ⟨new, by simpa using htk, hmap, hoid⟩⟩

theorem create_order_count (db : DB) (user : Nat) (reqs : List TicketAttrs)
    (db2 : DB) (ord : Order) (s : MovieSession)
    (hc : create_order db user reqs = .ok (db2, ord))
    (hs : ∀ q ∈ reqs, q.movie_session.id = s.id) :
    count_tickets db2.tickets s.id
      = count_tickets db.tickets s.id + reqs.length := by
  obtain ⟨_, new, htk, hmap, _⟩ := create_order_new_tickets db user reqs
    db2 ord hc
  have hall : ∀ t ∈ new, t.movie_session = s.id := by
    intro t ht
    have hm : (t.row, t.seat, t.movie_session) ∈
        new.map (fun t => (t.row, t.seat, t.movie_session)) :=
      List.mem_map_of_mem _ ht
    rw [hmap] at hm
    obtain ⟨q, hq, heq⟩ := List.mem_map.mp hm
    have h3 : q.movie_session.id = t.movie_session := by
      have := congrArg (fun p => p.2.2) heq
      simpa using this
    rw [← h3, hs q hq]
  have hlen : new.length = reqs.length := by
    have := congrArg List.length hmap
    simpa using this
  have hcnt : count_tickets new s.id = new.length := by
    unfold count_tickets
    rw [List.filter_eq_self.mpr (fun t ht => by simpa using hall t ht)]
  rw [htk, count_tickets_append, hcnt, hlen]

/-- C3: every row of the movie-session list carries
tickets_available = hall capacity − count of that session's tickets, and a
successful order of `reqs.length` tickets, all for session `s`, decreases
that session's availability by exactly `reqs.length`. -/
theorem tickets_available_spec (params : SessionQueryParams)
    (sessions : List MovieSession) (tickets : List Ticket)
    (out : List SessionRow) (r : SessionRow)
    (hq : MovieSessionViewSet.get_queryset .list params sessions tickets
      = .ok out)
    (hr : r ∈ out)
    (db : DB) (user : Nat) (reqs : List TicketAttrs) (db2 : DB)
    (ord : Order) (s : MovieSession)
    (hc : create_order db user reqs = .ok (db2, ord))
    (hs : ∀ q ∈ reqs, q.movie_session.id = s.id) :
    r.tickets_available = some (r.session.cinema_hall.capacity
      - count_tickets tickets r.session.id) ∧
    session_tickets_available db2.tickets s
      = session_tickets_available db.tickets s - reqs.length := by
  constructor
  · rw [session_list_row_avail params sessions tickets out r hq hr]
    rfl
  · unfold session_tickets_available
    rw [create_order_count db user reqs db2 ord s hc hs]
    push_cast
    ring

theorem tickets_available_spec_witness :
    MovieSessionViewSet.get_queryset .list ⟨none, none⟩ [sess1] []
      = .ok [row50] ∧
    row50 ∈ [row50] ∧
    create_order db0 1 [req34] = .ok (db1c, ⟨1, 1⟩) ∧
    (∀ q ∈ [req34], q.movie_session.id = sess1.id) ∧
    (row50.tickets_available = some (row50.session.cinema_hall.capacity
        - count_tickets [] row50.session.id) ∧
      session_tickets_available db1c.tickets sess1
        = session_tickets_available db0.tickets sess1
          - [req34].length) := by
  refine ⟨rfl, List.mem_singleton.mpr rfl, rfl, by decide, ?_⟩
  exact tickets_available_spec ⟨none, none⟩ [sess1] [] [row50] row50 rfl
    (List.mem_singleton.mpr rfl) db0 1 [req34] db1c ⟨1, 1⟩ sess1 rfl
    (by decide)

/-- C10: the actors/genres/title and date/movie query parameters only shape
the list action: the movie and movie-session retrieve querysets are the
same whatever parameters (and, for sessions, whatever ticket table) the
request carries; a retrieved session row has no tickets_available value,
and its detail representation carries the taken (row, seat) pairs of the
session instead. -/
theorem retrieve_ignores_query_params (p q : MovieQueryParams)
    (movies : List Movie) (p2 q2 : SessionQueryParams)
    (sessions : List MovieSession) (tickets tickets2 : List Ticket) :
    MovieViewSet.get_queryset .retrieve p movies
      = MovieViewSet.get_queryset .retrieve q movies ∧
    MovieSessionViewSet.get_queryset .retrieve p2 sessions tickets
      = MovieSessionViewSet.get_queryset .retrieve q2 sessions tickets2 ∧
    (∀ out r,
      MovieSessionViewSet.get_queryset .retrieve p2 sessions tickets
        = .ok out → r ∈ out → r.tickets_available = none) ∧
    (∀ s : MovieSession,
      (MovieSessionDetailSerializer.to_representation tickets s).taken_places
        = (tickets.filter (fun t => t.movie_session == s.id)).map
            (fun t => (t.row, t.seat))) := by
  refine ⟨rfl, rfl, fun out r hout hr => ?_, fun s => rfl⟩
  unfold MovieSessionViewSet.get_queryset at hout
  rw [if_neg (by decide)] at hout
  rw [← Except.ok.inj hout] at hr
  obtain ⟨s, _, heq⟩ := List.mem_map.mp (List.mem_dedup.mp hr)
  rw [← heq]

theorem insert_tickets_error_integrity (oid : Nat) (ts : List TicketAttrs)
    (db : DB) (e : PyExn) (h : DB.insert_tickets db oid ts = .error e) :
    ∃ m, e = .integrityError m := by
  induction ts generalizing db with
  | nil => simp [DB.insert_tickets] at h
  | cons q qs ih =>
    simp only [DB.insert_tickets] at h
    cases hin : db.insert_ticket oid q with
    | error e2 =>
      rw [hin] at h
      simp only [Except.bind, bind] at h
      have he : e2 = e := Except.error.inj h
      subst he
      unfold DB.insert_ticket at hin
      split at hin
      · exact ⟨_, (Except.error.inj hin).symm⟩
      · cases hin
    | ok dbx =>
      rw [hin] at h
      simp only [Except.bind, bind] at h
      exact ih dbx h

theorem insert_tickets_ok_not_exists (oid : Nat) (ts : List TicketAttrs)
    (db db2 : DB) (h : DB.insert_tickets db oid ts = .ok db2) :
    ∀ q ∈ ts,
      ticketExists db.tickets q.movie_session.id q.row q.seat = false := by
  induction ts generalizing db with
  | nil =>
    intro q hq
    cases hq
  | cons t ts2 ih =>
    simp only [DB.insert_tickets] at h
    cases hin : db.insert_ticket oid t with
    | error e =>
      rw [hin] at h
      simp [Except.bind, bind] at h
    | ok dbx =>
      rw [hin] at h
      simp only [Except.bind, bind] at h
      obtain ⟨hfree, hdbx⟩ := insert_ticket_ok db oid t dbx hin
      have htick : dbx.tickets = db.tickets ++
          [⟨db.next_ticket_id, t.row, t.seat, t.movie_session.id, oid⟩] := by
        rw [hdbx]
      intro q hq
      rcases List.mem_cons.mp hq with rfl | hq2
      · exact hfree
      · have hx := ih dbx h q hq2
        rw [htick] at hx
        unfold ticketExists at hx ⊢
        rw [List.any_append] at hx
        exact (Bool.or_eq_false_iff.mp hx).1

theorem insert_tickets_ok_pairwise (oid : Nat) (ts : List TicketAttrs)
    (db db2 : DB) (h : DB.insert_tickets db oid ts = .ok db2) :
    List.Pairwise (fun a b => ¬ same_place a b) ts := by
  induction ts generalizing db with
  | nil => exact List.Pairwise.nil
  | cons t ts2 ih =>
    simp only [DB.insert_tickets] at h
    cases hin : db.insert_ticket oid t with
    | error e =>
      rw [hin] at h
      simp [Except.bind, bind] at h
    | ok dbx =>
      rw [hin] at h
      simp only [Except.bind, bind] at h
      obtain ⟨hfree, hdbx⟩ := insert_ticket_ok db oid t dbx hin
      have htick : dbx.tickets = db.tickets ++
          [⟨db.next_ticket_id, t.row, t.seat, t.movie_session.id, oid⟩] := by
        rw [hdbx]
      refine List.Pairwise.cons ?_ (ih dbx h)
      intro b hb hsp
      have hxb := insert_tickets_ok_not_exists oid ts2 dbx db2 h b hb
      rw [htick] at hxb
      unfold ticketExists at hxb
      rw [List.any_append] at hxb
      have h2 := (Bool.or_eq_false_iff.mp hxb).2
      obtain ⟨hsid, hrow, hseat⟩ := hsp
      simp [hsid, hrow, hseat] at h2

/-- C4 counterexample: an order whose two requests name the same free seat
passes the validation pre-check, then hits the storage uniqueness
constraint inside `OrderSerializer.create`; the resulting error surfaces
as a raw IntegrityError, which is not a ValidationError of any shape —
nothing in the code converts it to the pre-check's ConflictError. -/
theorem integrity_error_not_converted_cex :
    create_order db0 1 [req34, req34] =
      .error (.integrityError
        "UNIQUE constraint failed: cinema_ticket.movie_session_id, cinema_ticket.row, cinema_ticket.seat")
    ∧
    ∀ d, PyExn.integrityError
        "UNIQUE constraint failed: cinema_ticket.movie_session_id, cinema_ticket.row, cinema_ticket.seat"
      ≠ PyExn.validationError d :=
  ⟨rfl, fun d h => PyExn.noConfusion h⟩

/-- C4 (amended): the storage-layer uniqueness violation is NOT caught by
the application: whenever a request batch passes the serializer pre-check
but contains two requests for the same (movie_session, row, seat),
create_order surfaces the raw IntegrityError — a generic server fault, not
the pre-check's ConflictError shape — and the transaction leaves the store
unchanged. -/
theorem integrity_error_propagates (db : DB) (user : Nat)
    (reqs : List TicketAttrs)
    (hval : OrderSerializer.run_validation db.tickets reqs = .ok reqs)
    (hdup : ¬ List.Pairwise (fun a b => ¬ same_place a b) reqs) :
    (∃ m, create_order db user reqs = .error (.integrityError m)) ∧
    commit db (create_order db user reqs) = db := by
  have hco : create_order db user reqs
      = OrderSerializer.create db user reqs := by
    unfold create_order
    rw [hval]
    simp [Except.bind, bind]
  cases hins : DB.insert_tickets
      { db with orders := db.orders ++ [⟨db.next_order_id, user⟩],
                next_order_id := db.next_order_id + 1 }
      db.next_order_id reqs with
  | ok dbx => exact absurd (insert_tickets_ok_pairwise _ _ _ _ hins) hdup
  | error e =>
    obtain ⟨m, hm⟩ := insert_tickets_error_integrity _ _ _ _ hins
    have herr : create_order db user reqs = .error e := by
      rw [hco]
      unfold OrderSerializer.create
      rw [hins]
      rfl
    subst hm
    exact ⟨⟨m, herr⟩, by rw [herr]; rfl⟩

theorem integrity_error_propagates_witness :
    OrderSerializer.run_validation db0.tickets [req34, req34]
      = .ok [req34, req34] ∧
    (¬ List.Pairwise (fun a b => ¬ same_place a b) [req34, req34]) ∧
    ((∃ m, create_order db0 1 [req34, req34]
        = .error (.integrityError m)) ∧
      commit db0 (create_order db0 1 [req34, req34]) = db0) := by
  have hdup : ¬ List.Pairwise (fun a b => ¬ same_place a b)
      [req34, req34] := by
    intro hp
    exact (List.pairwise_cons.mp hp).1 req34 (List.mem_singleton.mpr rfl)
      ⟨rfl, rfl, rfl⟩
  exact ⟨rfl, hdup, integrity_error_propagates db0 1 [req34, req34] rfl hdup⟩

/-- C8 counterexample: the malformed parameter actors=x makes
`_params_to_int` raise ValueError from `int("x")`; the movie list operation
surfaces that raw ValueError — which is not a ValidationError of any
detail — because nothing in `MovieViewSet.get_queryset` catches it. -/
theorem actors_param_valueerror_cex :
    MovieViewSet.params_to_int "x"
      = .error (.valueError "invalid literal for int with base 10") ∧
    MovieViewSet.get_queryset .list ⟨some "x", none, none⟩ [movie1]
      = .error (.valueError "invalid literal for int with base 10") ∧
    ∀ d, PyExn.valueError "invalid literal for int with base 10"
      ≠ PyExn.validationError d :=
  ⟨rfl, rfl, fun d h => PyExn.noConfusion h⟩

/-- C8 (amended): a non-empty `actors` value that is not a comma-separated
list of integers makes the movie list operation fail with the uncaught
ValueError of `int()` — a generic unhandled fault — never with a
ValidationError. -/
theorem actors_param_malformed_uncaught (a : String) (g t : Option String)
    (movies : List Movie) (e : PyExn) (ha : a ≠ "")
    (hmal : MovieViewSet.params_to_int a = .error e) :
    MovieViewSet.get_queryset .list ⟨some a, g, t⟩ movies = .error e ∧
    ∃ m, e = .valueError m := by
  have hval : ∃ m, e = .valueError m := by
    unfold MovieViewSet.params_to_int at hmal
    split at hmal
    · cases hmal
    · exact ⟨_, (Except.error.inj hmal).symm⟩
  have hact : applyActorsFilter movies (some a) = .error e := by
    simp only [applyActorsFilter]
    rw [if_pos ha, hmal]
  constructor
  · unfold MovieViewSet.get_queryset
    rw [if_pos rfl, hact]
  · exact hval

theorem actors_param_malformed_uncaught_witness :
    ("x" : String) ≠ "" ∧
    MovieViewSet.params_to_int "x"
      = .error (.valueError "invalid literal for int with base 10") ∧
    (MovieViewSet.get_queryset .list ⟨some "x", none, none⟩ []
        = .error (.valueError "invalid literal for int with base 10") ∧
      ∃ m, PyExn.valueError "invalid literal for int with base 10"
        = PyExn.valueError m) :=
  ⟨by decide, rfl,
    actors_param_malformed_uncaught "x" none none []
      (.valueError "invalid literal for int with base 10") (by decide) rfl⟩

/-- C9 counterexample: the create action selects plain `OrderSerializer`
(not `OrderListSerializer`), so the body of a successful create renders
each ticket with the movie session as a bare id — a shape distinct from
every nested-session rendering — contradicting "serialized with nested
ticket detail". -/
theorem create_response_serializer_cex :
    OrderViewSet.get_serializer_class ViewAction.create
      = SerializerKind.order ∧
    SerializerKind.order ≠ SerializerKind.orderList ∧
    create_order db0 1 [req34] = .ok (db1c, ⟨1, 1⟩) ∧
    order_create_response db1c ⟨1, 1⟩
      = ⟨1, [TicketRepr.withSessionId 1 3 4 1]⟩ ∧
    ∀ i row seat ms, TicketRepr.withSessionId 1 3 4 1
      ≠ TicketRepr.withSessionDetail i row seat ms :=
  ⟨rfl, fun h => SerializerKind.noConfusion h, rfl, rfl,
    fun i row seat ms h => TicketRepr.noConfusion h⟩

/-- C9 (amended): a successful create_order responds with the created
order whose tickets appear in request order, but rendered by the plain
`TicketSerializer` carrying only the movie session id; the nested-session
`OrderListSerializer` is selected only for the list action. -/
theorem create_response_plain_tickets (db : DB) (user : Nat)
    (reqs : List TicketAttrs) (db2 : DB) (ord : Order)
    (hfresh : ∀ t ∈ db.tickets, t.order ≠ db.next_order_id)
    (hc : create_order db user reqs = .ok (db2, ord)) :
    (∃ new, db2.tickets = db.tickets ++ new ∧
      new.map (fun t => (t.row, t.seat, t.movie_session)) =
        reqs.map (fun q => (q.row, q.seat, q.movie_session.id)) ∧
      (order_create_response db2 ord).tickets =
        new.map TicketSerializer.to_representation ∧
      ∀ t ∈ new, TicketSerializer.to_representation t =
        TicketRepr.withSessionId t.id t.row t.seat t.movie_session) ∧
    OrderViewSet.get_serializer_class ViewAction.create
      = SerializerKind.order ∧
    OrderViewSet.get_serializer_class ViewAction.list
      = SerializerKind.orderList := by
  obtain ⟨hord, hins⟩ := create_order_ok db user reqs db2 ord hc
  obtain ⟨_, new, htk, hmap, hoid⟩ := create_order_new_tickets db user reqs
    db2 ord hc
  have hordid : ord.id = db.next_order_id := by
    rw [hord]
  refine ⟨⟨new, htk, hmap, ?_, fun t _ => rfl⟩, rfl, rfl⟩
  unfold order_create_response
  rw [htk, List.filter_append]
  have hold : db.tickets.filter (fun t => t.order == ord.id) = [] := by
    rw [List.filter_eq_nil]
    intro t ht
    simp only [beq_iff_eq]
    rw [hordid]
    exact hfresh t ht
  have hnew : new.filter (fun t => t.order == ord.id) = new := by
    rw [List.filter_eq_self]
    intro t ht
    simp only [beq_iff_eq]
    exact hoid t ht
  rw [hold, hnew]
  rfl

theorem create_response_plain_tickets_witness :
    (∀ t ∈ db0.tickets, t.order ≠ db0.next_order_id) ∧
    create_order db0 1 [req34] = .ok (db1c, ⟨1, 1⟩) ∧
    ((∃ new, db1c.tickets = db0.tickets ++ new ∧
      new.map (fun t => (t.row, t.seat, t.movie_session)) =
        [req34].map (fun q => (q.row, q.seat, q.movie_session.id)) ∧
      (order_create_response db1c ⟨1, 1⟩).tickets =
        new.map TicketSerializer.to_representation ∧
      ∀ t ∈ new, TicketSerializer.to_representation t =
        TicketRepr.withSessionId t.id t.row t.seat t.movie_session) ∧
    OrderViewSet.get_serializer_class ViewAction.create
      = SerializerKind.order ∧
    OrderViewSet.get_serializer_class ViewAction.list
      = SerializerKind.orderList) :=
  ⟨by decide, rfl,
    create_response_plain_tickets db0 1 [req34] db1c ⟨1, 1⟩ (by decide) rfl⟩

theorem beginsWith_iff (needle hay : List Char) :
    beginsWith needle hay = true ↔ needle <+: hay := by
  induction needle generalizing hay with
  | nil => simp [beginsWith, List.nil_prefix]
  | cons c cs ih =>
    cases hay with
    | nil => simp [beginsWith]
    | cons d ds => simp [beginsWith, List.cons_prefix_cons, ih]

theorem occursIn_iff (needle hay : List Char) :
    occursIn needle hay = true ↔ needle <:+: hay := by
  induction hay with
  | nil => simp [occursIn, beginsWith_iff, List.infix_nil, List.prefix_nil]
  | cons d ds ih =>
    simp [occursIn, beginsWith_iff, ih, List.infix_cons_iff]


theorem applyGenresFilter_mem (movies : List Movie) (genres : Option String)
    (m : Movie) :
    m ∈ applyGenresFilter movies genres ↔
      m ∈ movies ∧ (∀ g, genres = some g → g ≠ "" →
        ∃ ge ∈ m.genres, icontains ge.name g = true) := by
  cases genres with
  | none => simp [applyGenresFilter]
  | some g =>
    by_cases hg : g = ""
    · subst hg
      simp [applyGenresFilter]
    · simp [applyGenresFilter, hg, List.mem_filter, List.any_eq_true]

theorem applyTitleFilter_mem (movies : List Movie) (title : Option String)
    (m : Movie) :
    m ∈ applyTitleFilter movies title ↔
      m ∈ movies ∧ (∀ t, title = some t → t ≠ "" →
        icontains m.title t = true) := by
  cases title with
  | none => simp [applyTitleFilter]
  | some t =>
    by_cases ht : t = ""
    · subst ht
      simp [applyTitleFilter]
    · simp [applyTitleFilter, ht, List.mem_filter]

theorem applyActorsFilter_ok_mem (movies : List Movie)
    (actors : Option String) (ids : List Int)
    (hids : ∀ a, actors = some a → a ≠ "" →
      MovieViewSet.params_to_int a = .ok ids) :
    ∃ q1, applyActorsFilter movies actors = .ok q1 ∧
      ∀ m, m ∈ q1 ↔ m ∈ movies ∧ (∀ a, actors = some a → a ≠ "" →
        ∃ ac ∈ m.actors, ac.id ∈ ids) := by
  cases actors with
  | none => exact ⟨movies, rfl, by simp⟩
  | some a =>
    by_cases ha : a = ""
    · subst ha
      exact ⟨movies, by simp [applyActorsFilter], by simp⟩
    · refine ⟨movies.filter (fun m =>
        m.actors.any (fun ac => ids.contains ac.id)), ?_, ?_⟩
      · simp only [applyActorsFilter]
        rw [if_pos ha, hids a rfl ha]
      · intro m
        simp [List.mem_filter, List.any_eq_true, ha]

/-- C6: for every combination of the actors/genres/title query parameters
(each omitted, empty, or supplied — with a supplied actors value parsing to
the id list `ids`), the movie list succeeds and returns exactly the movies
satisfying every supplied filter: some actor id in `ids`, some genre name
containing the genres value case-insensitively, and a title containing the
title value case-insensitively; supplied filters combine by AND (an
omitted or empty filter imposes nothing) and the result has no duplicate
movie. -/
theorem movie_list_filters_spec (movies : List Movie)
    (actors genres title : Option String) (ids : List Int)
    (hids : ∀ a, actors = some a → a ≠ "" →
      MovieViewSet.params_to_int a = .ok ids) :
    ∃ result,
      MovieViewSet.get_queryset .list ⟨actors, genres, title⟩ movies
        = .ok result ∧
      (∀ m : Movie, m ∈ result ↔ (m ∈ movies ∧
        (∀ a, actors = some a → a ≠ "" →
          ∃ ac ∈ m.actors, ac.id ∈ ids) ∧
        (∀ g, genres = some g → g ≠ "" → ∃ ge ∈ m.genres,
          g.data.map Char.toLower <:+: ge.name.data.map Char.toLower) ∧
        (∀ t, title = some t → t ≠ "" →
          t.data.map Char.toLower <:+: m.title.data.map Char.toLower))) ∧
      result.Nodup := by
  obtain ⟨q1, hq1, hmem1⟩ := applyActorsFilter_ok_mem movies actors ids hids
  have hq : MovieViewSet.get_queryset .list ⟨actors, genres, title⟩ movies
      = .ok ((applyTitleFilter (applyGenresFilter q1 genres) title).dedup)
      := by
    unfold MovieViewSet.get_queryset
    rw [if_pos rfl, hq1]
  refine ⟨_, hq, fun m => ?_, List.nodup_dedup _⟩
  rw [List.mem_dedup, applyTitleFilter_mem, applyGenresFilter_mem, hmem1]
  simp only [icontains, occursIn_iff]
  tauto

theorem movie_list_filters_spec_witness :
    (∀ a, (some "1" : Option String) = some a → a ≠ "" →
      MovieViewSet.params_to_int a = .ok [1]) ∧
    (∃ result,
      MovieViewSet.get_queryset .list ⟨some "1", some "act", some "incep"⟩
        [movie1] = .ok result ∧
      (∀ m : Movie, m ∈ result ↔ (m ∈ [movie1] ∧
        (∀ a, (some "1" : Option String) = some a → a ≠ "" →
          ∃ ac ∈ m.actors, ac.id ∈ ([1] : List Int)) ∧
        (∀ g, (some "act" : Option String) = some g → g ≠ "" →
          ∃ ge ∈ m.genres, g.data.map Char.toLower <:+:
            ge.name.data.map Char.toLower) ∧
        (∀ t, (some "incep" : Option String) = some t → t ≠ "" →
          t.data.map Char.toLower <:+: m.title.data.map Char.toLower))) ∧
      result.Nodup) := by
  have hids : ∀ a, (some "1" : Option String) = some a → a ≠ "" →
      MovieViewSet.params_to_int a = .ok [1] := by
    intro a h _
    cases Option.some.inj h
    rfl
  exact ⟨hids, movie_list_filters_spec [movie1] (some "1") (some "act")
    (some "incep") [1] hids⟩
